import Mathlib

/-!
Verification of the alert-evaluation core of the O2 Monitor repository
(`src/alert_evaluator.py`), as a shallow embedding in Lean 4.

Timestamps are modelled as rationals (seconds).  The two dictionaries of the
condition tracker are modelled as functions `String → Option ℚ` (key to
timestamp), matching Python `dict` lookup semantics.  Each Python method that
reads the wall clock receives the current time explicitly; the wall-clock
snapshot of one `evaluate` call is a single `DateTime` value carrying the
timestamp plus the hour/minute used by the sleep-window predicate.
-/

namespace O2Monitor

/-- Wall-clock snapshot: `ts` is the timestamp in seconds (used for
durations), `hour`/`minute` feed the sleep-window predicate, mirroring
Python `datetime.now()`. -/
structure DateTime where
  ts : ℚ
  hour : Nat
  minute : Nat
deriving Repr

/-- Modelled from the spec: `src.models.OxiReading` (module absent from the
repository snapshot), `{spo2: int, heart_rate: int, battery_level: int,
is_valid: bool}`. -/
structure OxiReading where
  spo2 : Int
  heart_rate : Int
  battery_level : Int
  is_valid : Bool
deriving Repr, DecidableEq

/-- Modelled from the spec: `src.models.AVAPSState`, enumerated
`{ON, OFF, UNKNOWN}`. -/
inductive AVAPSState where
  | ON
  | OFF
  | UNKNOWN
deriving Repr, DecidableEq

/-- Modelled from the spec: `src.models.AlertSeverity`, with the string
values used by `SEVERITY_MAP` in the source. -/
inductive AlertSeverity where
  | CRITICAL
  | HIGH
  | WARNING
  | INFO
deriving Repr, DecidableEq

/-- The severity's string value (Python `severity.value`). -/
def AlertSeverity.value : AlertSeverity → String
  | .CRITICAL => "critical"
  | .HIGH => "high"
  | .WARNING => "warning"
  | .INFO => "info"

/-- Modelled from the spec: `src.models.AlertType`. -/
inductive AlertType where
  | SPO2_CRITICAL
  | SPO2_WARNING
  | HR_HIGH
  | HR_LOW
  | DISCONNECT
  | NO_THERAPY_AT_NIGHT
  | BATTERY_CRITICAL
  | BATTERY_WARNING
deriving Repr, DecidableEq

/-- Modelled from the spec: `src.models.Alert` value object.  The implicit
creation timestamp is not modelled: no evaluator ever reads it back. -/
structure Alert where
  alert_type : AlertType
  severity : AlertSeverity
  message : String
  spo2 : Option Int := none
  heart_rate : Option Int := none
deriving Repr, DecidableEq

/-- Modelled from the spec: `src.config.AlertItemConfig`. -/
structure AlertItemConfig where
  threshold : ℚ
  duration_seconds : ℚ
  resend_interval_seconds : ℚ
  severity : String
  enabled : Bool
  bypass_on_therapy : Bool
deriving Repr, DecidableEq

/-- Modelled from the spec: `src.config.AlertsConfig`; `sleep_hours` is the
externally-owned `is_sleep_hours(hour, minute)` predicate. -/
structure AlertsConfig where
  spo2_critical_on_therapy : AlertItemConfig
  spo2_critical_off_therapy : AlertItemConfig
  spo2_warning : AlertItemConfig
  hr_high : AlertItemConfig
  hr_low : AlertItemConfig
  disconnect : AlertItemConfig
  no_therapy_at_night_high : AlertItemConfig
  no_therapy_at_night_info : AlertItemConfig
  battery_critical : AlertItemConfig
  battery_warning : AlertItemConfig
  sleep_hours : Nat → Nat → Bool

/-- `SEVERITY_MAP` from the source: severity strings to `AlertSeverity`. -/
def SEVERITY_MAP (s : String) : Option AlertSeverity :=
  if s = "critical" then some AlertSeverity.CRITICAL
  else if s = "high" then some AlertSeverity.HIGH
  else if s = "warning" then some AlertSeverity.WARNING
  else if s = "info" then some AlertSeverity.INFO
  else none

/-- `AlertConditionTracker`: `condition_starts` and `fired_alerts`
dictionaries, as key-to-timestamp partial maps. -/
structure AlertConditionTracker where
  condition_starts : String → Option ℚ
  fired_alerts : String → Option ℚ

namespace AlertConditionTracker

/-- `reset`: remove a condition's start time (`dict.pop(condition, None)`). -/
def reset (t : AlertConditionTracker) (condition : String) : AlertConditionTracker :=
  { t with condition_starts := fun k => if k = condition then none else t.condition_starts k }

/-- `start`: record `now` for the condition only if not already present. -/
def start (t : AlertConditionTracker) (condition : String) (now : ℚ) : AlertConditionTracker :=
  if (t.condition_starts condition).isSome then t
  else { t with condition_starts := fun k => if k = condition then some now else t.condition_starts k }

/-- `duration_seconds`: elapsed time since the condition started, 0 if absent. -/
def duration_seconds (t : AlertConditionTracker) (condition : String) (now : ℚ) : ℚ :=
  match t.condition_starts condition with
  | none => 0
  | some s => now - s

/-- `mark_fired`: record `now` under the composite `"{alert_type}_{severity}"` key. -/
def mark_fired (t : AlertConditionTracker) (alert_type severity : String) (now : ℚ) :
    AlertConditionTracker :=
  { t with fired_alerts :=
      fun k => if k = alert_type ++ "_" ++ severity then some now else t.fired_alerts k }

/-- `was_fired_recently`: the composite key exists and elapsed < cooldown. -/
def was_fired_recently (t : AlertConditionTracker) (alert_type severity : String)
    (cooldown_seconds : ℚ) (now : ℚ) : Bool :=
  match t.fired_alerts (alert_type ++ "_" ++ severity) with
  | none => false
  | some fired => decide (now - fired < cooldown_seconds)

/-- `clear_fired`: remove every composite key whose text starts with the
alert type (`k.startswith(alert_type)`). -/
def clear_fired (t : AlertConditionTracker) (alert_type : String) : AlertConditionTracker :=
  { t with fired_alerts :=
      fun k => if alert_type.data.isPrefixOf k.data then none else t.fired_alerts k }

/-- The empty tracker (`AlertConditionTracker()` default construction). -/
def init : AlertConditionTracker :=
  { condition_starts := fun _ => none, fired_alerts := fun _ => none }

end AlertConditionTracker

/-- Evaluator state: configuration, tracker, and the battery change-dedup
memo `_last_battery_level`. -/
structure AlertEvaluator where
  config : AlertsConfig
  tracker : AlertConditionTracker
  last_battery_level : Option Int

/-- `_get_severity`: config string to enum, defaulting to WARNING. -/
def get_severity (cfg : AlertItemConfig) : AlertSeverity :=
  (SEVERITY_MAP cfg.severity).getD AlertSeverity.WARNING

/-- `_should_bypass`: bypass when therapy is on and the item opts in. -/
def should_bypass (cfg : AlertItemConfig) (therapy_on : Bool) : Bool :=
  therapy_on && cfg.bypass_on_therapy

/-- Python `int()` truncation toward zero, applied to durations in messages. -/
def pyInt (q : ℚ) : Int :=
  if q < 0 then -(Int.floor (-q)) else Int.floor q

/-- The shared six-step evaluation policy body, exactly as inlined in the
SpO2 and HR evaluators of the source: condition check, `start`, dwell gate,
cooldown gate, unconditional `mark_fired`, alert construction only when
enabled; on a false condition, `reset` + `clear_fired`. -/
def evalCondition (tr : AlertConditionTracker) (cfg : AlertItemConfig) (key : String)
    (cond : Prop) [Decidable cond] (mkMsg : ℚ → String) (atype : AlertType)
    (sp hrOpt : Option Int) (now : ℚ) : List Alert × AlertConditionTracker :=
  if cond then
    let tr1 := tr.start key now
    let duration := tr1.duration_seconds key now
    if duration ≥ cfg.duration_seconds then
      let severity := get_severity cfg
      if tr1.was_fired_recently key severity.value cfg.resend_interval_seconds now then
        ([], tr1)
      else
        let tr2 := tr1.mark_fired key severity.value now
        if cfg.enabled then
          ([{ alert_type := atype, severity := severity, message := mkMsg duration,
              spo2 := sp, heart_rate := hrOpt }], tr2)
        else
          ([], tr2)
    else
      ([], tr1)
  else
    ([], (tr.reset key).clear_fired key)

/-- `_evaluate_spo2`: critical tier with therapy-dependent config and key,
then warning tier only when no critical alert was produced this cycle and
the warning item is not bypassed. -/
def evaluate_spo2 (e : AlertEvaluator) (reading : OxiReading) (therapy_on : Bool)
    (now : ℚ) : List Alert × AlertEvaluator :=
  let spo2 := reading.spo2
  let cfg := if therapy_on then e.config.spo2_critical_on_therapy
             else e.config.spo2_critical_off_therapy
  let tracker_key := if therapy_on then "spo2_critical_on" else "spo2_critical_off"
  let therapy_str := if therapy_on then "on therapy" else "off therapy"
  let resC :=
    evalCondition e.tracker cfg tracker_key ((spo2 : ℚ) < cfg.threshold)
      (fun duration => "SpO2 critically low at " ++ toString spo2 ++ "% for " ++
        toString (pyInt duration) ++ "s (" ++ therapy_str ++ ")")
      AlertType.SPO2_CRITICAL (some spo2) (some reading.heart_rate) now
  let cfgW := e.config.spo2_warning
  let resW :=
    if resC.1 = [] ∧ should_bypass cfgW therapy_on = false then
      evalCondition resC.2 cfgW "spo2_warning" ((spo2 : ℚ) < cfgW.threshold)
        (fun duration => "SpO2 warning at " ++ toString spo2 ++ "% for " ++
          toString (pyInt duration) ++ "s")
        AlertType.SPO2_WARNING (some spo2) (some reading.heart_rate) now
    else
      ([], resC.2)
  (resC.1 ++ resW.1, { e with tracker := resW.2 })

/-- `_evaluate_hr`: two fully independent tiers; each tier is skipped
entirely (no reset) when bypassed. -/
def evaluate_hr (e : AlertEvaluator) (reading : OxiReading) (therapy_on : Bool)
    (now : ℚ) : List Alert × AlertEvaluator :=
  let hr := reading.heart_rate
  let cfgH := e.config.hr_high
  let resH :=
    if should_bypass cfgH therapy_on then
      ([], e.tracker)
    else
      evalCondition e.tracker cfgH "hr_high" ((hr : ℚ) > cfgH.threshold)
        (fun duration => "Heart rate high at " ++ toString hr ++ " BPM for " ++
          toString (pyInt duration) ++ "s")
        AlertType.HR_HIGH (some reading.spo2) (some hr) now
  let cfgL := e.config.hr_low
  let resL :=
    if should_bypass cfgL therapy_on then
      ([], resH.2)
    else
      evalCondition resH.2 cfgL "hr_low" ((hr : ℚ) < cfgL.threshold)
        (fun duration => "Heart rate low at " ++ toString hr ++ " BPM for " ++
          toString (pyInt duration) ++ "s")
        AlertType.HR_LOW (some reading.spo2) (some hr) now
  (resH.1 ++ resL.1, { e with tracker := resL.2 })

/-- `_evaluate_disconnect`: on bypass, reset and clear; otherwise the policy
with the dwell compared in minutes (`duration_seconds / 60 ≥ threshold`),
cooldown still in seconds; on reconnect, reset and clear. -/
def evaluate_disconnect (e : AlertEvaluator) (ble_connected : Bool) (therapy_on : Bool)
    (now : ℚ) : List Alert × AlertEvaluator :=
  let cfg := e.config.disconnect
  if should_bypass cfg therapy_on then
    ([], { e with tracker := (e.tracker.reset "disconnect").clear_fired "disconnect" })
  else if !ble_connected then
    let tr1 := e.tracker.start "disconnect" now
    let duration_minutes := tr1.duration_seconds "disconnect" now / 60
    if duration_minutes ≥ cfg.threshold then
      let severity := get_severity cfg
      if tr1.was_fired_recently "disconnect" severity.value cfg.resend_interval_seconds now then
        ([], { e with tracker := tr1 })
      else
        let tr2 := tr1.mark_fired "disconnect" severity.value now
        if cfg.enabled then
          ([{ alert_type := AlertType.DISCONNECT, severity := severity,
              message := "Oximeter disconnected for " ++ toString (pyInt duration_minutes)
                ++ " minutes" }], { e with tracker := tr2 })
        else
          ([], { e with tracker := tr2 })
    else
      ([], { e with tracker := tr1 })
  else
    ([], { e with tracker := (e.tracker.reset "disconnect").clear_fired "disconnect" })

/-- `_evaluate_no_therapy_at_night`: sleep-window gate, then the two tiers
(HIGH first, INFO only when HIGH produced nothing), dwell compared in
minutes against each tier's `threshold`; the timer starts only when the
state is `OFF`, everything else resets. -/
def evaluate_no_therapy_at_night (e : AlertEvaluator) (avaps_state : AVAPSState)
    (now : DateTime) : List Alert × AlertEvaluator :=
  let in_sleep_hours := e.config.sleep_hours now.hour now.minute
  if !in_sleep_hours then
    ([], { e with tracker :=
      ((e.tracker.reset "no_therapy").clear_fired "no_therapy_info").clear_fired "no_therapy_high" })
  else if avaps_state = AVAPSState.OFF then
    let tr1 := e.tracker.start "no_therapy" now.ts
    let duration_minutes := tr1.duration_seconds "no_therapy" now.ts / 60
    let cfg_high := e.config.no_therapy_at_night_high
    let resH :=
      if duration_minutes ≥ cfg_high.threshold then
        let severity := get_severity cfg_high
        if tr1.was_fired_recently "no_therapy_high" severity.value
            cfg_high.resend_interval_seconds now.ts then
          (([] : List Alert), tr1)
        else
          let tr2 := tr1.mark_fired "no_therapy_high" severity.value now.ts
          if cfg_high.enabled then
            ([{ alert_type := AlertType.NO_THERAPY_AT_NIGHT, severity := severity,
                message := "URGENT: AVAPS therapy not in use for " ++
                  toString (pyInt duration_minutes) ++ " minutes during sleep hours" }], tr2)
          else
            ([], tr2)
      else
        ([], tr1)
    let cfg_info := e.config.no_therapy_at_night_info
    let resI :=
      if resH.1 = [] ∧ duration_minutes ≥ cfg_info.threshold then
        let severity := get_severity cfg_info
        if resH.2.was_fired_recently "no_therapy_info" severity.value
            cfg_info.resend_interval_seconds now.ts then
          (([] : List Alert), resH.2)
        else
          let tr2 := resH.2.mark_fired "no_therapy_info" severity.value now.ts
          if cfg_info.enabled then
            ([{ alert_type := AlertType.NO_THERAPY_AT_NIGHT, severity := severity,
                message := "AVAPS therapy not in use for " ++
                  toString (pyInt duration_minutes) ++ " minutes during sleep hours" }], tr2)
          else
            ([], tr2)
      else
        ([], resH.2)
    (resH.1 ++ resI.1, { e with tracker := resI.2 })
  else
    ([], { e with tracker :=
      ((e.tracker.reset "no_therapy").clear_fired "no_therapy_info").clear_fired "no_therapy_high" })

/-- `_evaluate_battery`: change-dedup guard, then the CRITICAL tier (no
dwell; the source returns from inside the threshold branch whether or not
an alert was produced), otherwise the WARNING tier. -/
def evaluate_battery (e : AlertEvaluator) (reading : OxiReading) (therapy_on : Bool)
    (now : ℚ) : List Alert × AlertEvaluator :=
  let battery := reading.battery_level
  if e.last_battery_level = some battery then
    ([], e)
  else
    let e1 : AlertEvaluator := { e with last_battery_level := some battery }
    let cfgC := e1.config.battery_critical
    if should_bypass cfgC therapy_on = false ∧ (battery : ℚ) ≤ cfgC.threshold then
      let severity := get_severity cfgC
      if e1.tracker.was_fired_recently "battery_critical" severity.value
          cfgC.resend_interval_seconds now then
        ([], e1)
      else
        let tr2 := e1.tracker.mark_fired "battery_critical" severity.value now
        if cfgC.enabled then
          ([{ alert_type := AlertType.BATTERY_CRITICAL, severity := severity,
              message := "Oximeter battery critically low at " ++ toString battery ++ "%",
              spo2 := some reading.spo2, heart_rate := some reading.heart_rate }],
            { e1 with tracker := tr2 })
        else
          ([], { e1 with tracker := tr2 })
    else
      let cfgW := e1.config.battery_warning
      if should_bypass cfgW therapy_on = false ∧ (battery : ℚ) ≤ cfgW.threshold then
        let severity := get_severity cfgW
        if e1.tracker.was_fired_recently "battery_warning" severity.value
            cfgW.resend_interval_seconds now then
          ([], e1)
        else
          let tr2 := e1.tracker.mark_fired "battery_warning" severity.value now
          if cfgW.enabled then
            ([{ alert_type := AlertType.BATTERY_WARNING, severity := severity,
                message := "Oximeter battery low at " ++ toString battery ++ "%",
                spo2 := some reading.spo2, heart_rate := some reading.heart_rate }],
              { e1 with tracker := tr2 })
          else
            ([], { e1 with tracker := tr2 })
      else
        ([], e1)

/-- `evaluate`: disconnect first; vitals and battery only when connected
with a present, valid reading; therapy-absence always; concatenated in
source order. -/
def evaluate (e : AlertEvaluator) (reading : Option OxiReading)
    (avaps_state : AVAPSState) (ble_connected : Bool) (now : DateTime) :
    List Alert × AlertEvaluator :=
  let therapy_on : Bool := avaps_state = AVAPSState.ON
  let res1 := evaluate_disconnect e ble_connected therapy_on now.ts
  let res2 :=
    match reading with
    | some r =>
      if ble_connected && r.is_valid then
        let resS := evaluate_spo2 res1.2 r therapy_on now.ts
        let resH := evaluate_hr resS.2 r therapy_on now.ts
        let resB := evaluate_battery resH.2 r therapy_on now.ts
        (resS.1 ++ resH.1 ++ resB.1, resB.2)
      else
        (([] : List Alert), res1.2)
    | none => (([] : List Alert), res1.2)
  let res3 := evaluate_no_therapy_at_night res2.2 avaps_state now
  (res1.1 ++ res2.1 ++ res3.1, res3.2)

/-- Number of alerts of a given type in a list. -/
def countT (l : List Alert) (t : AlertType) : Nat :=
  l.countP (fun a => a.alert_type = t)

/-! ### Concrete fixtures used by counterexamples and witnesses -/

/-- A baseline alert item: fires immediately, enabled, never bypassed. -/
def itemBase : AlertItemConfig :=
  { threshold := 0, duration_seconds := 0, resend_interval_seconds := 0,
    severity := "warning", enabled := true, bypass_on_therapy := false }

/-- A baseline configuration; individual tests update the items they use.
The sleep window is empty so the therapy-absence evaluator stays quiet
unless a test opts in. -/
def configBase : AlertsConfig :=
  { spo2_critical_on_therapy := { itemBase with threshold := -1, severity := "critical" }
    spo2_critical_off_therapy := { itemBase with threshold := -1, severity := "critical" }
    spo2_warning := { itemBase with threshold := -1 }
    hr_high := { itemBase with threshold := 1000 }
    hr_low := { itemBase with threshold := -1 }
    disconnect := { itemBase with threshold := 5 }
    no_therapy_at_night_high := { itemBase with threshold := 120, severity := "high" }
    no_therapy_at_night_info := { itemBase with threshold := 30, severity := "info" }
    battery_critical := { itemBase with threshold := 10, severity := "critical" }
    battery_warning := { itemBase with threshold := 20 }
    sleep_hours := fun _ _ => false }

/-- A baseline evaluator with empty tracker state. -/
def evaluatorBase : AlertEvaluator :=
  { config := configBase, tracker := AlertConditionTracker.init, last_battery_level := none }

/-- A valid reading with unremarkable vitals against `configBase`. -/
def readingBase : OxiReading :=
  { spo2 := 97, heart_rate := 70, battery_level := 80, is_valid := true }

/-! ### Iterated evaluation of one condition

`obsRun` plays an unbounded sequence of evaluations of a single alert
condition against the tracker, exactly as the per-condition block of the
source runs once per polling cycle: evaluation number `n` happens at time
`ts n` and observes the boolean condition `cond n`.  `obsOut` is the list of
alerts emitted by evaluation `n`. -/

/-- Tracker state after `n` evaluations of the condition, starting from `tr0`. -/
def obsRun (cfg : AlertItemConfig) (key : String) (mkMsg : ℚ → String) (atype : AlertType)
    (sp hrOpt : Option Int) (ts : Nat → ℚ) (cond : Nat → Prop) [DecidablePred cond]
    (tr0 : AlertConditionTracker) : Nat → AlertConditionTracker
  | 0 => tr0
  | n + 1 =>
    (evalCondition (obsRun cfg key mkMsg atype sp hrOpt ts cond tr0 n)
      cfg key (cond n) mkMsg atype sp hrOpt (ts n)).2

/-- Alerts emitted by evaluation number `n`. -/
def obsOut (cfg : AlertItemConfig) (key : String) (mkMsg : ℚ → String) (atype : AlertType)
    (sp hrOpt : Option Int) (ts : Nat → ℚ) (cond : Nat → Prop) [DecidablePred cond]
    (tr0 : AlertConditionTracker) (n : Nat) : List Alert :=
  (evalCondition (obsRun cfg key mkMsg atype sp hrOpt ts cond tr0 n)
    cfg key (cond n) mkMsg atype sp hrOpt (ts n)).1

/-- The constantly-true observation predicate (condition holds at every
evaluation), with its decidability instance. -/
def alwaysTrue : Nat → Prop := fun _ => True

instance : DecidablePred alwaysTrue := fun _ => Decidable.isTrue trivial

/-- Observation pattern that is false exactly at evaluation 1 (condition
breaks once and then returns). -/
def falseAtOne : Nat → Prop := fun n => n ≠ 1

instance : DecidablePred falseAtOne := fun n => inferInstanceAs (Decidable (n ≠ 1))

/-- Alert item used by concrete run instantiations: dwell 2 s, cooldown 5 s. -/
def itemDwell : AlertItemConfig :=
  { threshold := 100, duration_seconds := 2, resend_interval_seconds := 5,
    severity := "warning", enabled := true, bypass_on_therapy := false }

/-- Unit-step evaluation schedule: evaluation `n` happens at `n` seconds. -/
def tsUnit : Nat → ℚ := fun n => (n : ℚ)

/-- Constant message builder for run instantiations. -/
def msgConst : ℚ → String := fun _ => "alert"

/-- HR-high item that opts into therapy bypass. -/
def itemBypass : AlertItemConfig :=
  { itemBase with threshold := 100, bypass_on_therapy := true }

/-- Config whose HR-high tier bypasses on therapy (HR-low does not). -/
def configC2 : AlertsConfig := { configBase with hr_high := itemBypass }

/-- Evaluator that accumulated HR-high timer credit (start at t = 0) before
therapy turned on. -/
def evalC2 : AlertEvaluator :=
  { config := configC2, last_battery_level := none,
    tracker := { condition_starts := fun k => if k = "hr_high" then some 0 else none,
                 fired_alerts := fun _ => none } }

/-- Reading with a heart rate far above the HR-high threshold. -/
def readingC2 : OxiReading := { readingBase with heart_rate := 150 }

/-- Config with the HR tiers and disconnect all bypassing on therapy. -/
def configAllBypass : AlertsConfig :=
  { configBase with
    hr_high := itemBypass
    hr_low := { itemBase with threshold := -1, bypass_on_therapy := true }
    disconnect := { itemBase with threshold := 5, bypass_on_therapy := true } }

/-- Evaluator over `configAllBypass` with accumulated HR-high credit. -/
def evalC2b : AlertEvaluator :=
  { config := configAllBypass, last_battery_level := none,
    tracker := { condition_starts := fun k => if k = "hr_high" then some 0 else none,
                 fired_alerts := fun _ => none } }

/-- Config whose sleep window always holds (for therapy-absence tests). -/
def configSleep : AlertsConfig := { configBase with sleep_hours := fun _ _ => true }

/-- Evaluator in sleep hours with accumulated no-therapy credit (start t = 0). -/
def evalC4 : AlertEvaluator :=
  { config := configSleep, last_battery_level := none,
    tracker := { condition_starts := fun k => if k = "no_therapy" then some 0 else none,
                 fired_alerts := fun _ => none } }

/-- Battery-critical item with a long cooldown. -/
def itemBatteryCrit : AlertItemConfig :=
  { itemBase with threshold := 10, severity := "critical", resend_interval_seconds := 300 }

/-- Config for the battery tests: critical at most 10 (cooldown 300 s), warning at
most 20, both enabled, no bypass. -/
def configC5 : AlertsConfig := { configBase with battery_critical := itemBatteryCrit }

/-- Evaluator that fired battery-critical at t = 99 (still cooling down at t = 100),
with the warning ledger clean. -/
def evalC5 : AlertEvaluator :=
  { config := configC5, last_battery_level := none,
    tracker := { condition_starts := fun _ => none,
                 fired_alerts := fun k =>
                   if k = "battery_critical_critical" then some 99 else none } }

/-- Reading with battery at 5 %, below both battery thresholds. -/
def readingC5 : OxiReading := { readingBase with battery_level := 5 }

/-- Evaluator that has been disconnected since t = 0 (clean cooldown ledger). -/
def evalC6 : AlertEvaluator :=
  { config := configBase, last_battery_level := none,
    tracker := { condition_starts := fun k => if k = "disconnect" then some 0 else none,
                 fired_alerts := fun _ => none } }

/-- Config whose HR thresholds overlap: high above 50, low below 100, so a heart
rate of 70 breaches both tiers at once. -/
def configC7 : AlertsConfig :=
  { configBase with
    hr_high := { itemBase with threshold := 50 }
    hr_low := { itemBase with threshold := 100 } }

/-- Evaluator over `configC7`; battery memo matches the reading so the battery
evaluator stays quiet. -/
def evalC7 : AlertEvaluator :=
  { config := configC7, tracker := AlertConditionTracker.init, last_battery_level := some 80 }

/-! ### Basic lemmas about the condition tracker -/

namespace AlertConditionTracker

theorem start_fired_alerts (t : AlertConditionTracker) (key : String) (now : ℚ) :
    (t.start key now).fired_alerts = t.fired_alerts := by
  unfold start
  split <;> rfl

theorem start_of_some (t : AlertConditionTracker) (key : String) (now : ℚ) (s : ℚ)
    (h : t.condition_starts key = some s) : t.start key now = t := by
  unfold start
  rw [h]
  rfl

theorem start_starts_of_none (t : AlertConditionTracker) (key : String) (now : ℚ)
    (h : t.condition_starts key = none) :
    (t.start key now).condition_starts =
      fun k => if k = key then some now else t.condition_starts k := by
  unfold start
  rw [h]
  rfl

theorem start_starts_key (t : AlertConditionTracker) (key : String) (now : ℚ) :
    (t.start key now).condition_starts key = some ((t.condition_starts key).getD now) := by
  unfold start
  cases h : t.condition_starts key <;> simp [h]

theorem mark_fired_starts (t : AlertConditionTracker) (a sev : String) (now : ℚ) :
    (t.mark_fired a sev now).condition_starts = t.condition_starts := rfl

theorem mark_fired_at (t : AlertConditionTracker) (a sev : String) (now : ℚ) :
    (t.mark_fired a sev now).fired_alerts (a ++ "_" ++ sev) = some now := by
  simp [mark_fired]

theorem mark_fired_other (t : AlertConditionTracker) (a sev : String) (now : ℚ) (k : String)
    (h : k ≠ a ++ "_" ++ sev) :
    (t.mark_fired a sev now).fired_alerts k = t.fired_alerts k := by
  simp [mark_fired, h]

theorem was_fired_recently_none (t : AlertConditionTracker) (a sev : String) (c now : ℚ)
    (h : t.fired_alerts (a ++ "_" ++ sev) = none) :
    t.was_fired_recently a sev c now = false := by
  unfold was_fired_recently
  rw [h]

theorem was_fired_recently_some (t : AlertConditionTracker) (a sev : String) (c now f : ℚ)
    (h : t.fired_alerts (a ++ "_" ++ sev) = some f) :
    t.was_fired_recently a sev c now = decide (now - f < c) := by
  unfold was_fired_recently
  rw [h]

theorem reset_starts_key (t : AlertConditionTracker) (key : String) :
    (t.reset key).condition_starts key = none := by
  simp [reset]

theorem clear_fired_starts (t : AlertConditionTracker) (a : String) :
    (t.clear_fired a).condition_starts = t.condition_starts := rfl

theorem clear_fired_at (t : AlertConditionTracker) (a k : String)
    (h : a.data.isPrefixOf k.data = true) : (t.clear_fired a).fired_alerts k = none := by
  unfold clear_fired
  dsimp only
  rw [if_pos h]

theorem duration_of_some (t : AlertConditionTracker) (key : String) (now s : ℚ)
    (h : t.condition_starts key = some s) : t.duration_seconds key now = now - s := by
  unfold duration_seconds
  rw [h]

end AlertConditionTracker

/-! ### Branch lemmas for the shared policy body -/

section EvalConditionLemmas

variable (tr : AlertConditionTracker) (cfg : AlertItemConfig) (key : String)
  (cond : Prop) [Decidable cond] (mkMsg : ℚ → String) (atype : AlertType)
  (sp hrOpt : Option Int) (now : ℚ)

theorem evalCondition_not (h : ¬ cond) :
    evalCondition tr cfg key cond mkMsg atype sp hrOpt now =
      ([], (tr.reset key).clear_fired key) := by
  simp only [evalCondition, if_neg h]

theorem evalCondition_arming (h : cond)
    (hd : ¬ (tr.start key now).duration_seconds key now ≥ cfg.duration_seconds) :
    evalCondition tr cfg key cond mkMsg atype sp hrOpt now = ([], tr.start key now) := by
  simp only [evalCondition, if_pos h, if_neg hd]

theorem evalCondition_cooldown (h : cond)
    (hd : (tr.start key now).duration_seconds key now ≥ cfg.duration_seconds)
    (hf : (tr.start key now).was_fired_recently key (get_severity cfg).value
      cfg.resend_interval_seconds now = true) :
    evalCondition tr cfg key cond mkMsg atype sp hrOpt now = ([], tr.start key now) := by
  simp only [evalCondition, if_pos h, if_pos hd, hf, if_true]

theorem evalCondition_fire (h : cond)
    (hd : (tr.start key now).duration_seconds key now ≥ cfg.duration_seconds)
    (hf : (tr.start key now).was_fired_recently key (get_severity cfg).value
      cfg.resend_interval_seconds now = false)
    (hen : cfg.enabled = true) :
    evalCondition tr cfg key cond mkMsg atype sp hrOpt now =
      ([{ alert_type := atype, severity := get_severity cfg,
          message := mkMsg ((tr.start key now).duration_seconds key now),
          spo2 := sp, heart_rate := hrOpt }],
        (tr.start key now).mark_fired key (get_severity cfg).value now) := by
  simp only [evalCondition, if_pos h, if_pos hd, hf, hen, Bool.false_eq_true, if_false, if_true]

theorem evalCondition_shadow (h : cond)
    (hd : (tr.start key now).duration_seconds key now ≥ cfg.duration_seconds)
    (hf : (tr.start key now).was_fired_recently key (get_severity cfg).value
      cfg.resend_interval_seconds now = false)
    (hen : cfg.enabled = false) :
    evalCondition tr cfg key cond mkMsg atype sp hrOpt now =
      ([], (tr.start key now).mark_fired key (get_severity cfg).value now) := by
  simp only [evalCondition, if_pos h, hd, hf, hen, Bool.false_eq_true, if_false, if_true, ge_iff_le,
    if_pos]

theorem evalCondition_pos_starts (h : cond) :
    (evalCondition tr cfg key cond mkMsg atype sp hrOpt now).2.condition_starts =
      (tr.start key now).condition_starts := by
  simp only [evalCondition, if_pos h]
  split_ifs <;> rfl

theorem evalCondition_fst_cases :
    (evalCondition tr cfg key cond mkMsg atype sp hrOpt now).1 = [] ∨
      (evalCondition tr cfg key cond mkMsg atype sp hrOpt now).1 =
        [{ alert_type := atype, severity := get_severity cfg,
           message := mkMsg ((tr.start key now).duration_seconds key now),
           spo2 := sp, heart_rate := hrOpt }] := by
  unfold evalCondition
  dsimp only
  split_ifs <;> simp

end EvalConditionLemmas

/-! ### The start-timestamp invariant of the iterated evaluation -/

section ObsRun

variable (cfg : AlertItemConfig) (key : String) (mkMsg : ℚ → String) (atype : AlertType)
  (sp hrOpt : Option Int) (ts : Nat → ℚ) (cond : Nat → Prop) [DecidablePred cond]
  (tr0 : AlertConditionTracker)

/-- A step whose condition is true leaves the key present; used
contrapositively: if the key is absent after step `m`, `cond m` was false. -/
theorem obsRun_succ_isSome (m : Nat) (hm : cond m) :
    (obsRun cfg key mkMsg atype sp hrOpt ts cond tr0 (m + 1)).condition_starts key ≠ none := by
  show (evalCondition _ cfg key (cond m) mkMsg atype sp hrOpt (ts m)).2.condition_starts key ≠ none
  rw [evalCondition_pos_starts _ cfg key (cond m) mkMsg atype sp hrOpt (ts m) hm]
  rw [AlertConditionTracker.start_starts_key]
  simp

/-- A step whose condition is false removes the key. -/
theorem obsRun_succ_none (m : Nat) (hm : ¬ cond m) :
    (obsRun cfg key mkMsg atype sp hrOpt ts cond tr0 (m + 1)).condition_starts key = none := by
  show (evalCondition _ cfg key (cond m) mkMsg atype sp hrOpt (ts m)).2.condition_starts key = none
  rw [evalCondition_not _ cfg key (cond m) mkMsg atype sp hrOpt (ts m) hm]
  exact AlertConditionTracker.reset_starts_key _ key

/-- The tracked start timestamp after `n` evaluations is exactly the time of
the first evaluation of the current unbroken streak of true observations. -/
theorem obsRun_starts_iff (hstart : tr0.condition_starts key = none) :
    ∀ n s, (obsRun cfg key mkMsg atype sp hrOpt ts cond tr0 n).condition_starts key = some s ↔
      ∃ k, k < n ∧ s = ts k ∧ (∀ m, k ≤ m → m < n → cond m) ∧
        (k = 0 ∨ ¬ cond (k - 1)) := by
  intro n
  induction n with
  | zero =>
    intro s
    show tr0.condition_starts key = some s ↔ _
    rw [hstart]
    simp
  | succ n ih =>
    intro s
    by_cases hc : cond n
    · have hstep : (obsRun cfg key mkMsg atype sp hrOpt ts cond tr0 (n + 1)).condition_starts =
          ((obsRun cfg key mkMsg atype sp hrOpt ts cond tr0 n).start key (ts n)).condition_starts :=
        evalCondition_pos_starts _ cfg key (cond n) mkMsg atype sp hrOpt (ts n) hc
      rw [hstep]
      cases hprev : (obsRun cfg key mkMsg atype sp hrOpt ts cond tr0 n).condition_starts key with
      | some s0 =>
        rw [AlertConditionTracker.start_of_some _ key (ts n) s0 hprev, hprev]
        constructor
        · intro hs
          have hss : s0 = s := Option.some.inj hs
          obtain ⟨k, hk, hts, hstreak, hbound⟩ := (ih s0).mp hprev
          refine ⟨k, by omega, by rw [← hss]; exact hts, ?_, hbound⟩
          intro m hkm hmn
          by_cases hmn2 : m < n
          · exact hstreak m hkm hmn2
          · have : m = n := by omega
            rw [this]
            exact hc
        · intro ⟨k, hk, hts, hstreak, hbound⟩
          by_cases hkn : k < n
          · have h2 : (obsRun cfg key mkMsg atype sp hrOpt ts cond tr0 n).condition_starts key =
                some (ts k) :=
              (ih (ts k)).mpr ⟨k, hkn, rfl, fun m hkm hmn => hstreak m hkm (by omega), hbound⟩
            rw [hprev] at h2
            rw [hts]
            exact h2
          · -- k = n: then either n = 0 or cond (n-1) failed, both contradict the
            -- key being present after n steps
            have hkeq : k = n := by omega
            exfalso
            rcases hbound with h0 | hnot
            · have hn0 : n = 0 := by omega
              rw [hn0] at hprev
              simp only [obsRun, hstart] at hprev
              exact Option.noConfusion hprev
            · rcases Nat.eq_zero_or_pos n with hz | hn1
              · rw [hkeq, hz] at hnot
                rw [hz] at hc
                exact hnot hc
              · have hrm := obsRun_succ_none cfg key mkMsg atype sp hrOpt ts cond tr0 (n - 1)
                  (by rw [← hkeq]; exact hnot)
                rw [Nat.sub_add_cancel hn1] at hrm
                rw [hrm] at hprev
                exact Option.noConfusion hprev
      | none =>
        rw [AlertConditionTracker.start_starts_of_none _ key (ts n) hprev]
        simp only [if_pos rfl]
        constructor
        · intro hs
          have hsome : s = ts n := (Option.some.inj hs).symm
          refine ⟨n, by omega, hsome, ?_, ?_⟩
          · intro m hnm hmn
            have : m = n := by omega
            rw [this]
            exact hc
          · rcases Nat.eq_zero_or_pos n with h0 | hpos
            · exact Or.inl h0
            · right
              intro hcm
              have habs := obsRun_succ_isSome cfg key mkMsg atype sp hrOpt ts cond tr0 (n - 1) hcm
              rw [Nat.sub_add_cancel hpos] at habs
              exact habs hprev
        · intro ⟨k, hk, hts, hstreak, hbound⟩
          by_cases hkn : k < n
          · exfalso
            have h2 : (obsRun cfg key mkMsg atype sp hrOpt ts cond tr0 n).condition_starts key =
                some (ts k) :=
              (ih (ts k)).mpr ⟨k, hkn, rfl, fun m hkm hmn => hstreak m hkm (by omega), hbound⟩
            rw [hprev] at h2
            exact Option.noConfusion h2
          · have hkeq : k = n := by omega
            rw [hts, hkeq]
            simp
    · rw [obsRun_succ_none cfg key mkMsg atype sp hrOpt ts cond tr0 n hc]
      constructor
      · intro h
        exact Option.noConfusion h
      · intro ⟨k, hk, _, hstreak, _⟩
        exact absurd (hstreak n (by omega) (by omega)) hc

end ObsRun

section DwellCooldown

variable (cfg : AlertItemConfig) (key : String) (mkMsg : ℚ → String) (atype : AlertType)
  (sp hrOpt : Option Int) (ts : Nat → ℚ) (tr0 : AlertConditionTracker)

/-- While the condition stays true, the tracked start stays pinned at the
time of the first evaluation. -/
theorem alwaysRun_starts (hstart : tr0.condition_starts key = none)
    (n : Nat) (hn : 1 ≤ n) :
    (obsRun cfg key mkMsg atype sp hrOpt ts alwaysTrue tr0 n).condition_starts key =
      some (ts 0) := by
  refine (obsRun_starts_iff cfg key mkMsg atype sp hrOpt ts alwaysTrue tr0 hstart n
    (ts 0)).mpr ?_
  exact ⟨0, by omega, rfl, fun m _ _ => trivial, Or.inl rfl⟩

/-- The duration computed at evaluation `n` is the time elapsed since the
first evaluation. -/
theorem alwaysRun_duration (hstart : tr0.condition_starts key = none) (n : Nat) :
    ((obsRun cfg key mkMsg atype sp hrOpt ts alwaysTrue tr0 n).start key
        (ts n)).duration_seconds key (ts n) = ts n - ts 0 := by
  rcases Nat.eq_zero_or_pos n with h0 | hpos
  · subst h0
    show ((tr0.start key (ts 0)).duration_seconds key (ts 0)) = _
    refine AlertConditionTracker.duration_of_some _ key (ts 0) ((tr0.condition_starts key).getD (ts 0)) ?_ |>.trans ?_
    · exact AlertConditionTracker.start_starts_key tr0 key (ts 0)
    · rw [hstart]
      rfl
  · have hs := alwaysRun_starts cfg key mkMsg atype sp hrOpt ts tr0 hstart n hpos
    rw [AlertConditionTracker.start_of_some _ key (ts n) (ts 0) hs]
    exact AlertConditionTracker.duration_of_some _ key (ts n) (ts 0) hs

/-- Before the dwell is met, each evaluation only starts/keeps the timer:
the cooldown ledger is untouched. -/
theorem alwaysRun_fired_before (hstart : tr0.condition_starts key = none)
    (N : Nat) (hbefore : ∀ i, i < N → ts i - ts 0 < cfg.duration_seconds) :
    ∀ k, k ≤ N →
      (obsRun cfg key mkMsg atype sp hrOpt ts alwaysTrue tr0 k).fired_alerts =
        tr0.fired_alerts := by
  intro k
  induction k with
  | zero => intro _; rfl
  | succ m ih =>
    intro hm
    have harm := evalCondition_arming
      (obsRun cfg key mkMsg atype sp hrOpt ts alwaysTrue tr0 m) cfg key (alwaysTrue m)
      mkMsg atype sp hrOpt (ts m) trivial
      (by
        rw [alwaysRun_duration cfg key mkMsg atype sp hrOpt ts tr0 hstart m]
        exact not_le.mpr (hbefore m (by omega)))
    show (evalCondition _ cfg key (alwaysTrue m) mkMsg atype sp hrOpt (ts m)).2.fired_alerts = _
    rw [harm]
    rw [AlertConditionTracker.start_fired_alerts]
    exact ih (by omega)

/-- Before the dwell is met, no alert is emitted. -/
theorem alwaysRun_out_before (hstart : tr0.condition_starts key = none)
    (N : Nat) (hbefore : ∀ i, i < N → ts i - ts 0 < cfg.duration_seconds) :
    ∀ i, i < N → obsOut cfg key mkMsg atype sp hrOpt ts alwaysTrue tr0 i = [] := by
  intro i hi
  have harm := evalCondition_arming
    (obsRun cfg key mkMsg atype sp hrOpt ts alwaysTrue tr0 i) cfg key (alwaysTrue i)
    mkMsg atype sp hrOpt (ts i) trivial
    (by
      rw [alwaysRun_duration cfg key mkMsg atype sp hrOpt ts tr0 hstart i]
      exact not_le.mpr (hbefore i hi))
  show (evalCondition _ cfg key (alwaysTrue i) mkMsg atype sp hrOpt (ts i)).1 = []
  rw [harm]

/-- At the first evaluation whose elapsed time meets the dwell, the alert
fires (once) and the fire time is recorded in the cooldown ledger. -/
theorem alwaysRun_step_N (hstart : tr0.condition_starts key = none)
    (hfired : tr0.fired_alerts (key ++ "_" ++ (get_severity cfg).value) = none)
    (hen : cfg.enabled = true)
    (N : Nat) (hbefore : ∀ i, i < N → ts i - ts 0 < cfg.duration_seconds)
    (hdwell : ts N - ts 0 ≥ cfg.duration_seconds) :
    obsOut cfg key mkMsg atype sp hrOpt ts alwaysTrue tr0 N =
      [{ alert_type := atype, severity := get_severity cfg, message := mkMsg (ts N - ts 0),
         spo2 := sp, heart_rate := hrOpt }] ∧
    (obsRun cfg key mkMsg atype sp hrOpt ts alwaysTrue tr0 (N + 1)).fired_alerts
      (key ++ "_" ++ (get_severity cfg).value) = some (ts N) := by
  have hdur := alwaysRun_duration cfg key mkMsg atype sp hrOpt ts tr0 hstart N
  have hnf : ((obsRun cfg key mkMsg atype sp hrOpt ts alwaysTrue tr0 N).start key
      (ts N)).was_fired_recently key (get_severity cfg).value cfg.resend_interval_seconds
      (ts N) = false := by
    apply AlertConditionTracker.was_fired_recently_none
    rw [AlertConditionTracker.start_fired_alerts]
    rw [alwaysRun_fired_before cfg key mkMsg atype sp hrOpt ts tr0 hstart N hbefore N le_rfl]
    exact hfired
  have hfire := evalCondition_fire
    (obsRun cfg key mkMsg atype sp hrOpt ts alwaysTrue tr0 N) cfg key (alwaysTrue N)
    mkMsg atype sp hrOpt (ts N) trivial (by rw [hdur]; exact hdwell) hnf hen
  constructor
  · show (evalCondition _ cfg key (alwaysTrue N) mkMsg atype sp hrOpt (ts N)).1 = _
    rw [hfire, hdur]
  · show (evalCondition _ cfg key (alwaysTrue N) mkMsg atype sp hrOpt (ts N)).2.fired_alerts _ = _
    rw [hfire]
    exact AlertConditionTracker.mark_fired_at _ key (get_severity cfg).value (ts N)

/-- Within the cooldown window after the fire, the recorded fire time stays
in place: every evaluation there is suppressed by the cooldown gate. -/
theorem alwaysRun_fired_after (hmono : ∀ n, ts n < ts (n + 1))
    (hstart : tr0.condition_starts key = none)
    (hfired : tr0.fired_alerts (key ++ "_" ++ (get_severity cfg).value) = none)
    (hen : cfg.enabled = true)
    (N : Nat) (hbefore : ∀ i, i < N → ts i - ts 0 < cfg.duration_seconds)
    (hdwell : ts N - ts 0 ≥ cfg.duration_seconds) :
    ∀ j, N + 1 ≤ j → (∀ m, N < m → m < j → ts m - ts N < cfg.resend_interval_seconds) →
      (obsRun cfg key mkMsg atype sp hrOpt ts alwaysTrue tr0 j).fired_alerts
        (key ++ "_" ++ (get_severity cfg).value) = some (ts N) := by
  have hSM : StrictMono ts := strictMono_nat_of_lt_succ hmono
  intro j hj
  induction j, hj using Nat.le_induction with
  | base =>
    intro _
    exact (alwaysRun_step_N cfg key mkMsg atype sp hrOpt ts tr0 hstart hfired hen N
      hbefore hdwell).2
  | succ j hj ih =>
    intro hwin
    have hih := ih (fun m hm1 hm2 => hwin m hm1 (by omega))
    have hjN : N < j := by omega
    have hdurj := alwaysRun_duration cfg key mkMsg atype sp hrOpt ts tr0 hstart j
    have hcool := evalCondition_cooldown
      (obsRun cfg key mkMsg atype sp hrOpt ts alwaysTrue tr0 j) cfg key (alwaysTrue j)
      mkMsg atype sp hrOpt (ts j) trivial
      (by
        rw [hdurj]
        have := hSM hjN
        linarith)
      (by
        rw [AlertConditionTracker.was_fired_recently_some _ key (get_severity cfg).value
          cfg.resend_interval_seconds (ts j) (ts N)
          (by rw [AlertConditionTracker.start_fired_alerts]; exact hih)]
        simp only [decide_eq_true_eq]
        exact hwin j (by omega) (by omega))
    show (evalCondition _ cfg key (alwaysTrue j) mkMsg atype sp hrOpt (ts j)).2.fired_alerts _ = _
    rw [hcool]
    rw [AlertConditionTracker.start_fired_alerts]
    exact hih

/-- Within the cooldown window after the fire, no alert is emitted. -/
theorem alwaysRun_out_after (hmono : ∀ n, ts n < ts (n + 1))
    (hstart : tr0.condition_starts key = none)
    (hfired : tr0.fired_alerts (key ++ "_" ++ (get_severity cfg).value) = none)
    (hen : cfg.enabled = true)
    (N : Nat) (hbefore : ∀ i, i < N → ts i - ts 0 < cfg.duration_seconds)
    (hdwell : ts N - ts 0 ≥ cfg.duration_seconds) :
    ∀ j, N < j → ts j - ts N < cfg.resend_interval_seconds →
      obsOut cfg key mkMsg atype sp hrOpt ts alwaysTrue tr0 j = [] := by
  have hSM : StrictMono ts := strictMono_nat_of_lt_succ hmono
  intro j hj hr
  have hwin : ∀ m, N < m → m < j → ts m - ts N < cfg.resend_interval_seconds := by
    intro m hm1 hm2
    have := hSM hm2
    linarith
  have hfj := alwaysRun_fired_after cfg key mkMsg atype sp hrOpt ts tr0 hmono hstart hfired
    hen N hbefore hdwell j (by omega) hwin
  have hdurj := alwaysRun_duration cfg key mkMsg atype sp hrOpt ts tr0 hstart j
  have hcool := evalCondition_cooldown
    (obsRun cfg key mkMsg atype sp hrOpt ts alwaysTrue tr0 j) cfg key (alwaysTrue j)
    mkMsg atype sp hrOpt (ts j) trivial
    (by
      rw [hdurj]
      have := hSM hj
      linarith)
    (by
      rw [AlertConditionTracker.was_fired_recently_some _ key (get_severity cfg).value
        cfg.resend_interval_seconds (ts j) (ts N)
        (by rw [AlertConditionTracker.start_fired_alerts]; exact hfj)]
      simp only [decide_eq_true_eq]
      exact hr)
  show (evalCondition _ cfg key (alwaysTrue j) mkMsg atype sp hrOpt (ts j)).1 = []
  rw [hcool]

end DwellCooldown

/-! ### Alert-type counting lemmas for the per-family evaluators -/

theorem countT_nil (t : AlertType) : countT [] t = 0 := rfl

theorem countT_append (l1 l2 : List Alert) (t : AlertType) :
    countT (l1 ++ l2) t = countT l1 t + countT l2 t := by
  simp [countT, List.countP_append]

theorem countT_singleton_ne (a : Alert) (t : AlertType) (ht : a.alert_type ≠ t) :
    countT [a] t = 0 := by
  simp [countT, ht]

theorem evalCondition_countT (tr : AlertConditionTracker) (cfg : AlertItemConfig)
    (key : String) (cond : Prop) [Decidable cond] (mkMsg : ℚ → String) (atype : AlertType)
    (sp hrOpt : Option Int) (now : ℚ) (t : AlertType) (ht : t ≠ atype) :
    countT (evalCondition tr cfg key cond mkMsg atype sp hrOpt now).1 t = 0 := by
  rcases evalCondition_fst_cases tr cfg key cond mkMsg atype sp hrOpt now with h | h <;>
    rw [h]
  · rfl
  · exact countT_singleton_ne _ t (Ne.symm ht)

theorem evaluate_disconnect_countT (e : AlertEvaluator) (conn therapy_on : Bool) (now : ℚ)
    (t : AlertType) (ht : t ≠ AlertType.DISCONNECT) :
    countT (evaluate_disconnect e conn therapy_on now).1 t = 0 := by
  unfold evaluate_disconnect
  dsimp only
  split_ifs <;> simp [countT, Ne.symm ht]

theorem evaluate_no_therapy_countT (e : AlertEvaluator) (avaps : AVAPSState)
    (now : DateTime) (t : AlertType) (ht : t ≠ AlertType.NO_THERAPY_AT_NIGHT) :
    countT (evaluate_no_therapy_at_night e avaps now).1 t = 0 := by
  unfold evaluate_no_therapy_at_night
  dsimp only
  split_ifs <;> simp [countT, Ne.symm ht, List.countP_append]

theorem evaluate_battery_countT (e : AlertEvaluator) (reading : OxiReading)
    (therapy_on : Bool) (now : ℚ) (t : AlertType)
    (ht1 : t ≠ AlertType.BATTERY_CRITICAL) (ht2 : t ≠ AlertType.BATTERY_WARNING) :
    countT (evaluate_battery e reading therapy_on now).1 t = 0 := by
  unfold evaluate_battery
  dsimp only
  split_ifs <;> simp [countT, Ne.symm ht1, Ne.symm ht2]

theorem evaluate_hr_countT (e : AlertEvaluator) (reading : OxiReading)
    (therapy_on : Bool) (now : ℚ) (t : AlertType)
    (ht1 : t ≠ AlertType.HR_HIGH) (ht2 : t ≠ AlertType.HR_LOW) :
    countT (evaluate_hr e reading therapy_on now).1 t = 0 := by
  unfold evaluate_hr
  dsimp only
  rw [countT_append]
  have h1 : countT (if should_bypass e.config.hr_high therapy_on = true then
      ([], e.tracker)
    else evalCondition e.tracker e.config.hr_high "hr_high"
      ((reading.heart_rate : ℚ) > e.config.hr_high.threshold)
      (fun duration => "Heart rate high at " ++ toString reading.heart_rate ++ " BPM for " ++
        toString (pyInt duration) ++ "s")
      AlertType.HR_HIGH (some reading.spo2) (some reading.heart_rate) now).1 t = 0 := by
    split_ifs with h
    · rfl
    · exact evalCondition_countT _ _ _ _ _ _ _ _ _ t ht1
  split_ifs at h1 ⊢ <;>
    first
      | simp [countT_nil, h1, evalCondition_countT _ _ _ _ _ _ _ _ _ t ht2]
      | simp [countT_nil, evalCondition_countT _ _ _ _ _ _ _ _ _ t ht2]

/-- The SpO2 evaluator never emits both tiers in one cycle: if the critical tier
produced an alert, the warning tier is not evaluated at all. -/
theorem evaluate_spo2_excl (e : AlertEvaluator) (reading : OxiReading)
    (therapy_on : Bool) (now : ℚ) :
    countT (evaluate_spo2 e reading therapy_on now).1 AlertType.SPO2_CRITICAL = 0 ∨
    countT (evaluate_spo2 e reading therapy_on now).1 AlertType.SPO2_WARNING = 0 := by
  unfold evaluate_spo2
  dsimp only
  rw [countT_append, countT_append]
  by_cases hC : (evalCondition e.tracker
      (if therapy_on = true then e.config.spo2_critical_on_therapy
        else e.config.spo2_critical_off_therapy)
      (if therapy_on = true then "spo2_critical_on" else "spo2_critical_off")
      ((reading.spo2 : ℚ) <
        (if therapy_on = true then e.config.spo2_critical_on_therapy
          else e.config.spo2_critical_off_therapy).threshold)
      (fun duration => "SpO2 critically low at " ++ toString reading.spo2 ++ "% for " ++
        toString (pyInt duration) ++ "s (" ++
        (if therapy_on = true then "on therapy" else "off therapy") ++ ")")
      AlertType.SPO2_CRITICAL (some reading.spo2) (some reading.heart_rate) now).1 = []
  · left
    rw [hC, countT_nil]
    split_ifs <;>
      first
        | rfl
        | rw [evalCondition_countT _ _ _ _ _ AlertType.SPO2_WARNING _ _ _
            AlertType.SPO2_CRITICAL (by decide)]
  · right
    have hg : ¬ ((evalCondition e.tracker
        (if therapy_on = true then e.config.spo2_critical_on_therapy
          else e.config.spo2_critical_off_therapy)
        (if therapy_on = true then "spo2_critical_on" else "spo2_critical_off")
        ((reading.spo2 : ℚ) <
          (if therapy_on = true then e.config.spo2_critical_on_therapy
            else e.config.spo2_critical_off_therapy).threshold)
        (fun duration => "SpO2 critically low at " ++ toString reading.spo2 ++ "% for " ++
          toString (pyInt duration) ++ "s (" ++
          (if therapy_on = true then "on therapy" else "off therapy") ++ ")")
        AlertType.SPO2_CRITICAL (some reading.spo2) (some reading.heart_rate) now).1 = [] ∧
        should_bypass e.config.spo2_warning therapy_on = false) := fun hand => hC hand.1
    rw [if_neg hg, countT_nil]
    rw [evalCondition_countT _ _ _ _ _ AlertType.SPO2_CRITICAL _ _ _
      AlertType.SPO2_WARNING (by decide)]

/-! ### Claim theorems -/

/-- C1: for an alert condition with dwell `cfg.duration_seconds` and cooldown
`cfg.resend_interval_seconds` evaluated by the shared policy body (e.g. HR high), if
the condition becomes true at evaluation 0 (time `ts 0`) and stays true at every
subsequent evaluation, then no alert is emitted before the dwell is met, exactly one
alert of that (type, severity) is emitted at the first evaluation `N` where
`now - t0 ≥ dwell`, and no further alert is emitted at any later evaluation while
`now - lastFired < cooldown`, even though the condition remains true throughout. -/
theorem condition_dwell_cooldown_unique_fire
    (cfg : AlertItemConfig) (key : String) (mkMsg : ℚ → String) (atype : AlertType)
    (sp hrOpt : Option Int) (ts : Nat → ℚ) (tr0 : AlertConditionTracker)
    (hmono : ∀ n, ts n < ts (n + 1))
    (hstart : tr0.condition_starts key = none)
    (hfired : tr0.fired_alerts (key ++ "_" ++ (get_severity cfg).value) = none)
    (hen : cfg.enabled = true)
    (N : Nat) (hbefore : ∀ i, i < N → ts i - ts 0 < cfg.duration_seconds)
    (hdwell : ts N - ts 0 ≥ cfg.duration_seconds) :
    (∀ i, i < N → obsOut cfg key mkMsg atype sp hrOpt ts alwaysTrue tr0 i = []) ∧
    obsOut cfg key mkMsg atype sp hrOpt ts alwaysTrue tr0 N =
      [{ alert_type := atype, severity := get_severity cfg, message := mkMsg (ts N - ts 0),
         spo2 := sp, heart_rate := hrOpt }] ∧
    (∀ j, N < j → ts j - ts N < cfg.resend_interval_seconds →
      obsOut cfg key mkMsg atype sp hrOpt ts alwaysTrue tr0 j = []) :=
  ⟨alwaysRun_out_before cfg key mkMsg atype sp hrOpt ts tr0 hstart N hbefore,
   (alwaysRun_step_N cfg key mkMsg atype sp hrOpt ts tr0 hstart hfired hen N
     hbefore hdwell).1,
   alwaysRun_out_after cfg key mkMsg atype sp hrOpt ts tr0 hmono hstart hfired hen N
     hbefore hdwell⟩

/-- Witness for C1 at a concrete instance: dwell 2 s, cooldown 5 s, evaluations at
0, 1, 2, 3 s; nothing at evaluation 1, the alert at evaluation 2, nothing at
evaluation 3. -/
theorem condition_dwell_cooldown_unique_fire_witness :
    obsOut itemDwell "hr_high" msgConst AlertType.HR_HIGH none none tsUnit alwaysTrue
      AlertConditionTracker.init 1 = [] ∧
    obsOut itemDwell "hr_high" msgConst AlertType.HR_HIGH none none tsUnit alwaysTrue
      AlertConditionTracker.init 2 ≠ [] ∧
    obsOut itemDwell "hr_high" msgConst AlertType.HR_HIGH none none tsUnit alwaysTrue
      AlertConditionTracker.init 3 = [] := by
  obtain ⟨h1, h2, h3⟩ := condition_dwell_cooldown_unique_fire itemDwell "hr_high" msgConst
    AlertType.HR_HIGH none none tsUnit AlertConditionTracker.init
    (fun n => by simp only [tsUnit]; exact_mod_cast Nat.lt_succ_self n)
    rfl rfl rfl 2
    (by
      intro i hi
      interval_cases i <;> norm_num [tsUnit, itemDwell])
    (by norm_num [tsUnit, itemDwell])
  refine ⟨h1 1 (by norm_num), ?_, h3 3 (by norm_num) (by norm_num [tsUnit, itemDwell])⟩
  rw [h2]
  simp

/-- C3: a condition key is present in `condition_starts` iff the condition has been
observed continuously true since the recorded timestamp, which is the time of the
first observation of the current unbroken true-streak (no intervening false
observation); any evaluation observing the condition false removes the key and clears
the key's cooldown ledger entries, so a later true observation restarts the dwell
from zero with no credit carried over. -/
theorem condition_starts_invariant_reset
    (cfg : AlertItemConfig) (key : String) (mkMsg : ℚ → String) (atype : AlertType)
    (sp hrOpt : Option Int) (ts : Nat → ℚ) (cond : Nat → Prop) [DecidablePred cond]
    (tr0 : AlertConditionTracker)
    (hstart : tr0.condition_starts key = none) :
    (∀ n s, (obsRun cfg key mkMsg atype sp hrOpt ts cond tr0 n).condition_starts key =
        some s ↔
      ∃ k, k < n ∧ s = ts k ∧ (∀ m, k ≤ m → m < n → cond m) ∧ (k = 0 ∨ ¬ cond (k - 1))) ∧
    (∀ n, ¬ cond n →
      (obsRun cfg key mkMsg atype sp hrOpt ts cond tr0 (n + 1)).condition_starts key =
        none ∧
      ∀ k2, key.data.isPrefixOf k2.data = true →
        (obsRun cfg key mkMsg atype sp hrOpt ts cond tr0 (n + 1)).fired_alerts k2 =
          none) := by
  constructor
  · exact obsRun_starts_iff cfg key mkMsg atype sp hrOpt ts cond tr0 hstart
  · intro n hn
    refine ⟨obsRun_succ_none cfg key mkMsg atype sp hrOpt ts cond tr0 n hn, ?_⟩
    intro k2 hk2
    show (evalCondition _ cfg key (cond n) mkMsg atype sp hrOpt (ts n)).2.fired_alerts k2 =
      none
    rw [evalCondition_not _ cfg key (cond n) mkMsg atype sp hrOpt (ts n) hn]
    exact AlertConditionTracker.clear_fired_at _ key k2 hk2

/-- Witness for C3 with a condition that breaks exactly at evaluation 1: after that
false observation the key and its ledger entries are gone, and after evaluations
2 and 3 are observed true again, the recorded start is the time of evaluation 2. -/
theorem condition_starts_invariant_reset_witness :
    (obsRun itemDwell "hr_high" msgConst AlertType.HR_HIGH none none tsUnit falseAtOne
      AlertConditionTracker.init 2).condition_starts "hr_high" = none ∧
    (obsRun itemDwell "hr_high" msgConst AlertType.HR_HIGH none none tsUnit falseAtOne
      AlertConditionTracker.init 2).fired_alerts "hr_high_warning" = none ∧
    (obsRun itemDwell "hr_high" msgConst AlertType.HR_HIGH none none tsUnit falseAtOne
      AlertConditionTracker.init 4).condition_starts "hr_high" = some (tsUnit 2) := by
  obtain ⟨hiff, hreset⟩ := condition_starts_invariant_reset itemDwell "hr_high" msgConst
    AlertType.HR_HIGH none none tsUnit falseAtOne AlertConditionTracker.init rfl
  obtain ⟨ha, hb⟩ := hreset 1 (by decide)
  refine ⟨ha, hb "hr_high_warning" (by decide), ?_⟩
  refine (hiff 4 (tsUnit 2)).mpr ⟨2, by omega, rfl, ?_, ?_⟩
  · intro m hm1 hm2
    show m ≠ 1
    omega
  · right
    decide

/-- C2 counterexample: with `bypass_on_therapy = true` on HR high and therapy ON, an
evaluation with the heart rate far above the threshold emits nothing but leaves the
tracked condition start in place — the claim asserts the condition start is removed
on every evaluation while therapy is ON. -/
theorem bypass_no_reset_counterexample :
    (evaluate_hr evalC2 readingC2 true 50).1 = [] ∧
    (evaluate_hr evalC2 readingC2 true 50).2.tracker.condition_starts "hr_high" =
      some 0 := by
  constructor <;>
    (simp [evaluate_hr, evalC2, configC2, itemBypass, itemBase, configBase, readingC2,
      readingBase, should_bypass, evalCondition, get_severity, SEVERITY_MAP,
      AlertSeverity.value, AlertConditionTracker.reset, AlertConditionTracker.clear_fired,
      AlertConditionTracker.start, AlertConditionTracker.duration_seconds,
      AlertConditionTracker.was_fired_recently, AlertConditionTracker.mark_fired] <;>
      first
        | decide
        | norm_num)

/-- C2 amended: while therapy is ON, a bypassed alert is never emitted, and the
disconnect evaluator resets its tracked state and cooldown ledger on every
evaluation; but the vitals evaluators skip bypassed tiers entirely without
resetting — with both HR tiers bypassed, `evaluate_hr` returns the evaluator state
unchanged, so timer credit accumulated before therapy turned ON survives the
bypassed period. -/
theorem bypass_skip_vs_reset (e : AlertEvaluator) (reading : OxiReading) (conn : Bool)
    (now : ℚ)
    (hH : e.config.hr_high.bypass_on_therapy = true)
    (hL : e.config.hr_low.bypass_on_therapy = true)
    (hD : e.config.disconnect.bypass_on_therapy = true) :
    evaluate_hr e reading true now = ([], e) ∧
    evaluate_disconnect e conn true now =
      ([], { e with tracker := (e.tracker.reset "disconnect").clear_fired "disconnect" }) := by
  constructor
  · unfold evaluate_hr
    simp [should_bypass, hH, hL]
  · unfold evaluate_disconnect
    simp [should_bypass, hD]

/-- Witness for the amended C2 at a concrete instance. -/
theorem bypass_skip_vs_reset_witness :
    evaluate_hr evalC2b readingC2 true 7 = ([], evalC2b) ∧
    evaluate_disconnect evalC2b false true 7 =
      ([], { evalC2b with
        tracker := (evalC2b.tracker.reset "disconnect").clear_fired "disconnect" }) :=
  bypass_skip_vs_reset evalC2b readingC2 false 7 rfl rfl rfl

/-- C4 counterexample: in sleep hours with therapy state UNKNOWN, the therapy-absence
evaluator resets the `"no_therapy"` timer (treating UNKNOWN like ON) instead of
starting/keeping it as the claim asserts for every non-ON state. -/
theorem no_therapy_unknown_counterexample :
    (evaluate_no_therapy_at_night evalC4 AVAPSState.UNKNOWN ⟨100, 23, 0⟩).1 = [] ∧
    (evaluate_no_therapy_at_night evalC4 AVAPSState.UNKNOWN
      ⟨100, 23, 0⟩).2.tracker.condition_starts "no_therapy" = none := by
  constructor <;>
    simp [evaluate_no_therapy_at_night, evalC4, configSleep, configBase, itemBase,
      AlertConditionTracker.reset, AlertConditionTracker.clear_fired]

/-- C4 amended: during sleep hours the therapy-absence evaluator starts (or keeps)
the `"no_therapy"` timer only when the therapy state is OFF; for UNKNOWN it behaves
exactly as for ON, resetting the timer and both tiers' cooldown entries. -/
theorem no_therapy_off_only (e : AlertEvaluator) (now : DateTime)
    (hs : e.config.sleep_hours now.hour now.minute = true) :
    evaluate_no_therapy_at_night e AVAPSState.UNKNOWN now =
      evaluate_no_therapy_at_night e AVAPSState.ON now ∧
    (evaluate_no_therapy_at_night e AVAPSState.UNKNOWN
      now).2.tracker.condition_starts "no_therapy" = none ∧
    (evaluate_no_therapy_at_night e AVAPSState.OFF
      now).2.tracker.condition_starts "no_therapy" =
      some ((e.tracker.condition_starts "no_therapy").getD now.ts) := by
  refine ⟨?_, ?_, ?_⟩
  · unfold evaluate_no_therapy_at_night
    simp [hs]
  · unfold evaluate_no_therapy_at_night
    simp [hs, AlertConditionTracker.clear_fired_starts, AlertConditionTracker.reset]
  · unfold evaluate_no_therapy_at_night
    simp only [hs, Bool.not_true, Bool.false_eq_true, if_false, if_pos rfl]
    split_ifs <;>
      simp [AlertConditionTracker.mark_fired_starts, AlertConditionTracker.start_starts_key]

/-- Witness for the amended C4 at a concrete instance. -/
theorem no_therapy_off_only_witness :
    evaluate_no_therapy_at_night evalC4 AVAPSState.UNKNOWN ⟨100, 23, 0⟩ =
      evaluate_no_therapy_at_night evalC4 AVAPSState.ON ⟨100, 23, 0⟩ ∧
    (evaluate_no_therapy_at_night evalC4 AVAPSState.OFF
      ⟨100, 23, 0⟩).2.tracker.condition_starts "no_therapy" = some 0 := by
  have h := no_therapy_off_only evalC4 ⟨100, 23, 0⟩ rfl
  exact ⟨h.1, by rw [h.2.2]; rfl⟩

/-- C8: a disabled alert item, at an evaluation where the condition holds, the dwell
is met and the cooldown has passed, still records the fire timestamp via
`mark_fired` exactly as the enabled configuration would, but contributes no Alert to
the output (the enabled configuration emits exactly one). -/
theorem disabled_shadow_fire
    (tr : AlertConditionTracker) (cfg : AlertItemConfig) (key : String)
    (cond : Prop) [Decidable cond] (mkMsg : ℚ → String) (atype : AlertType)
    (sp hrOpt : Option Int) (now : ℚ)
    (hc : cond)
    (hd : (tr.start key now).duration_seconds key now ≥ cfg.duration_seconds)
    (hf : (tr.start key now).was_fired_recently key (get_severity cfg).value
      cfg.resend_interval_seconds now = false) :
    (evalCondition tr { cfg with enabled := false } key cond mkMsg atype sp hrOpt now).1 =
      [] ∧
    (evalCondition tr { cfg with enabled := false } key cond mkMsg atype sp hrOpt now).2 =
      (tr.start key now).mark_fired key (get_severity cfg).value now ∧
    (evalCondition tr { cfg with enabled := false } key cond mkMsg atype sp hrOpt now).2 =
      (evalCondition tr { cfg with enabled := true } key cond mkMsg atype sp hrOpt now).2 ∧
    (evalCondition tr { cfg with enabled := true } key cond mkMsg atype sp hrOpt now).1 =
      [{ alert_type := atype, severity := get_severity cfg,
         message := mkMsg ((tr.start key now).duration_seconds key now),
         spo2 := sp, heart_rate := hrOpt }] := by
  have hsh := evalCondition_shadow tr { cfg with enabled := false } key cond mkMsg atype
    sp hrOpt now hc hd hf rfl
  have hfi := evalCondition_fire tr { cfg with enabled := true } key cond mkMsg atype
    sp hrOpt now hc hd hf rfl
  refine ⟨by rw [hsh], ?_, ?_, ?_⟩
  · rw [hsh]
    rfl
  · rw [hsh, hfi]
    rfl
  · rw [hfi]
    rfl

/-- Witness for C8 at a concrete instance. -/
theorem disabled_shadow_fire_witness :
    (evalCondition AlertConditionTracker.init { itemBase with enabled := false } "hr_high"
      True msgConst AlertType.HR_HIGH none none 0).1 = [] ∧
    (evalCondition AlertConditionTracker.init { itemBase with enabled := false } "hr_high"
      True msgConst AlertType.HR_HIGH none none 0).2 =
    (evalCondition AlertConditionTracker.init { itemBase with enabled := true } "hr_high"
      True msgConst AlertType.HR_HIGH none none 0).2 := by
  have h := disabled_shadow_fire AlertConditionTracker.init itemBase "hr_high" True
    msgConst AlertType.HR_HIGH none none 0 trivial
    (by
      simp [AlertConditionTracker.init, AlertConditionTracker.start,
        AlertConditionTracker.duration_seconds, itemBase])
    (by
      simp [AlertConditionTracker.init, AlertConditionTracker.start,
        AlertConditionTracker.was_fired_recently, itemBase])
  exact ⟨h.1, h.2.2.1⟩

/-- C9: when the reading's battery level equals the previously observed level, the
battery evaluator returns an empty list and mutates no state at all. -/
theorem battery_unchanged_noop (e : AlertEvaluator) (reading : OxiReading)
    (therapy_on : Bool) (now : ℚ)
    (h : e.last_battery_level = some reading.battery_level) :
    evaluate_battery e reading therapy_on now = ([], e) := by
  unfold evaluate_battery
  rw [if_pos h]

/-- Witness for C9 at a concrete instance. -/
theorem battery_unchanged_noop_witness :
    evaluate_battery { evaluatorBase with last_battery_level := some 80 } readingBase
      false 0 = ([], { evaluatorBase with last_battery_level := some 80 }) :=
  battery_unchanged_noop { evaluatorBase with last_battery_level := some 80 } readingBase
    false 0 rfl

/-- C5 counterexample: battery 5 % ≤ critical threshold 10, where critical is
suppressed by its cooldown (last fire at t = 99, cooldown 300 s, now t = 100); the
warning tier (threshold 20, enabled, clean ledger) would fire if evaluated, but the
evaluator emits nothing and does not even touch the warning ledger — refuting the
claim that WARNING is evaluated whenever CRITICAL did not fire. -/
theorem battery_warning_skipped_counterexample :
    (evaluate_battery evalC5 readingC5 false 100).1 = [] ∧
    (evaluate_battery evalC5 readingC5 false 100).2.tracker.fired_alerts
      "battery_warning_warning" = none := by
  simp [evaluate_battery, evalC5, configC5, itemBatteryCrit, itemBase, configBase,
    readingC5, readingBase, should_bypass, get_severity, SEVERITY_MAP, AlertSeverity.value,
    AlertConditionTracker.was_fired_recently, AlertConditionTracker.mark_fired]
  norm_num
  decide

/-- C5 amended: after the change-dedup guard passes, entering the CRITICAL branch
(battery ≤ critical.threshold and critical not bypassed) prevents WARNING evaluation
for that cycle regardless of whether CRITICAL actually fired — cooldown-suppressed or
disabled CRITICAL still skips WARNING; only when the critical branch is not entered
is WARNING evaluated. -/
theorem battery_critical_condition_blocks_warning (e : AlertEvaluator)
    (reading : OxiReading) (therapy_on : Bool) (now : ℚ)
    (hne : ¬ e.last_battery_level = some reading.battery_level)
    (hnb : should_bypass e.config.battery_critical therapy_on = false)
    (hth : (reading.battery_level : ℚ) ≤ e.config.battery_critical.threshold) :
    countT (evaluate_battery e reading therapy_on now).1 AlertType.BATTERY_WARNING =
      0 := by
  unfold evaluate_battery
  dsimp only
  rw [if_neg hne, if_pos ⟨hnb, hth⟩]
  split_ifs <;> simp [countT]

/-- Witness for the amended C5 at the counterexample's input. -/
theorem battery_critical_condition_blocks_warning_witness :
    countT (evaluate_battery evalC5 readingC5 false 100).1 AlertType.BATTERY_WARNING =
      0 :=
  battery_critical_condition_blocks_warning evalC5 readingC5 false 100
    (by decide) rfl
    (by norm_num [evalC5, configC5, itemBatteryCrit, itemBase, readingC5, readingBase])

/-- C6: the disconnect evaluator compares its dwell in minutes — elapsed seconds
divided by 60 against `cfg.threshold` interpreted in minutes — while the resend
cooldown stays in seconds; with a clean cooldown ledger the alert is emitted exactly
when `now - t0 ≥ 60 * threshold` seconds have elapsed, i.e. 60 times the real-time
wait of an HR dwell numerically equal to this threshold. -/
theorem disconnect_minutes_dwell (e : AlertEvaluator) (therapy_on : Bool) (now t0 : ℚ)
    (hnb : should_bypass e.config.disconnect therapy_on = false)
    (hen : e.config.disconnect.enabled = true)
    (hst : e.tracker.condition_starts "disconnect" = some t0)
    (hfd : e.tracker.fired_alerts
      ("disconnect_" ++ (get_severity e.config.disconnect).value) = none) :
    (evaluate_disconnect e false therapy_on now).1 ≠ [] ↔
      now - t0 ≥ 60 * e.config.disconnect.threshold := by
  have h60 : ((now - t0) / 60 ≥ e.config.disconnect.threshold) ↔
      (now - t0 ≥ 60 * e.config.disconnect.threshold) := by
    rw [ge_iff_le, ge_iff_le, le_div_iff (by norm_num : (0:ℚ) < 60), mul_comm]
  unfold evaluate_disconnect
  dsimp only
  rw [if_neg (by simp [hnb]), if_pos (by simp),
    AlertConditionTracker.start_of_some _ _ now t0 hst,
    AlertConditionTracker.duration_of_some _ _ now t0 hst]
  by_cases hmin : now - t0 ≥ 60 * e.config.disconnect.threshold
  · rw [if_pos (h60.mpr hmin)]
    rw [AlertConditionTracker.was_fired_recently_none _ _ _ _ _ hfd]
    rw [if_neg (by simp), if_pos hen]
    simp [hmin]
  · rw [if_neg (fun hcon => hmin (h60.mp hcon))]
    simp [hmin]

/-- Witness for C6: threshold 5 (minutes) with 300 s elapsed fires exactly at the
60-fold boundary. -/
theorem disconnect_minutes_dwell_witness :
    (evaluate_disconnect evalC6 false false 300).1 ≠ [] := by
  have h := disconnect_minutes_dwell evalC6 false 300 0 rfl rfl (by decide) rfl
  exact h.mpr (by norm_num [evalC6, configBase, itemBase])

/-- C7: no single `evaluate` cycle ever returns both an SpO2 critical and an SpO2
warning alert (critical firing suppresses warning evaluation that cycle); by
contrast, HR high and HR low alerts can both be present in one cycle's output, as a
concrete configuration and state demonstrate. -/
theorem spo2_exclusive_hr_cofire :
    (∀ (e : AlertEvaluator) (reading : Option OxiReading) (avaps : AVAPSState)
      (conn : Bool) (now : DateTime),
      countT (evaluate e reading avaps conn now).1 AlertType.SPO2_CRITICAL = 0 ∨
      countT (evaluate e reading avaps conn now).1 AlertType.SPO2_WARNING = 0) ∧
    countT (evaluate evalC7 (some readingBase) AVAPSState.OFF true ⟨0, 12, 0⟩).1
      AlertType.HR_HIGH = 1 ∧
    countT (evaluate evalC7 (some readingBase) AVAPSState.OFF true ⟨0, 12, 0⟩).1
      AlertType.HR_LOW = 1 := by
  refine ⟨?_, ?_⟩
  · intro e reading avaps conn now
    unfold evaluate
    dsimp only
    cases reading with
    | none =>
      left
      rw [countT_append, countT_append, countT_nil,
        evaluate_disconnect_countT _ _ _ _ _ (by decide),
        evaluate_no_therapy_countT _ _ _ _ (by decide)]
    | some r =>
      dsimp only
      by_cases hcv : conn && r.is_valid
      · rw [if_pos hcv]
        rcases evaluate_spo2_excl (evaluate_disconnect e conn
            (decide (avaps = AVAPSState.ON)) now.ts).2 r
            (decide (avaps = AVAPSState.ON)) now.ts with hs | hs
        · left
          rw [countT_append, countT_append, countT_append, countT_append,
            evaluate_disconnect_countT _ _ _ _ _ (by decide),
            evaluate_no_therapy_countT _ _ _ _ (by decide),
            evaluate_hr_countT _ _ _ _ _ (by decide) (by decide),
            evaluate_battery_countT _ _ _ _ _ (by decide) (by decide), hs]
        · right
          rw [countT_append, countT_append, countT_append, countT_append,
            evaluate_disconnect_countT _ _ _ _ _ (by decide),
            evaluate_no_therapy_countT _ _ _ _ (by decide),
            evaluate_hr_countT _ _ _ _ _ (by decide) (by decide),
            evaluate_battery_countT _ _ _ _ _ (by decide) (by decide), hs]
      · rw [if_neg hcv]
        left
        rw [countT_append, countT_append, countT_nil,
          evaluate_disconnect_countT _ _ _ _ _ (by decide),
          evaluate_no_therapy_countT _ _ _ _ (by decide)]
  · constructor <;>
      (simp [evaluate, evaluate_disconnect, evaluate_spo2, evaluate_hr, evaluate_battery,
        evaluate_no_therapy_at_night, evalCondition, evalC7, configC7, configBase,
        itemBase, readingBase, should_bypass, get_severity, SEVERITY_MAP,
        AlertSeverity.value, countT, AlertConditionTracker.init,
        AlertConditionTracker.reset, AlertConditionTracker.clear_fired,
        AlertConditionTracker.start, AlertConditionTracker.duration_seconds,
        AlertConditionTracker.was_fired_recently, AlertConditionTracker.mark_fired] <;>
        first
          | decide
          | norm_num)

/-- C10: `evaluate` is total over its whole input space by construction; whenever the
oximeter is disconnected, the reading absent, or the reading invalid, the SpO2, HR
and battery evaluators are not invoked and the reading is never dereferenced: the
cycle is exactly the disconnect evaluation followed by the therapy-absence
evaluation. -/
theorem evaluate_total_guard (e : AlertEvaluator) (reading : Option OxiReading)
    (avaps_state : AVAPSState) (ble_connected : Bool) (now : DateTime)
    (h : ble_connected = false ∨ reading = none ∨
      ∃ r, reading = some r ∧ r.is_valid = false) :
    evaluate e reading avaps_state ble_connected now =
      ((evaluate_disconnect e ble_connected
          (decide (avaps_state = AVAPSState.ON)) now.ts).1 ++
        (evaluate_no_therapy_at_night
          (evaluate_disconnect e ble_connected
            (decide (avaps_state = AVAPSState.ON)) now.ts).2 avaps_state now).1,
        (evaluate_no_therapy_at_night
          (evaluate_disconnect e ble_connected
            (decide (avaps_state = AVAPSState.ON)) now.ts).2 avaps_state now).2) := by
  unfold evaluate
  dsimp only
  rcases h with hb | hrd | ⟨r, hrd, hv⟩
  · subst hb
    cases reading <;> simp
  · subst hrd
    simp
  · subst hrd
    simp [hv]

/-- Witness for C10 with no reading and no connection. -/
theorem evaluate_total_guard_witness :
    evaluate evaluatorBase none AVAPSState.OFF false ⟨0, 12, 0⟩ =
      ((evaluate_disconnect evaluatorBase false
          (decide (AVAPSState.OFF = AVAPSState.ON)) 0).1 ++
        (evaluate_no_therapy_at_night
          (evaluate_disconnect evaluatorBase false
            (decide (AVAPSState.OFF = AVAPSState.ON)) 0).2 AVAPSState.OFF
          ⟨0, 12, 0⟩).1,
        (evaluate_no_therapy_at_night
          (evaluate_disconnect evaluatorBase false
            (decide (AVAPSState.OFF = AVAPSState.ON)) 0).2 AVAPSState.OFF
          ⟨0, 12, 0⟩).2) :=
  evaluate_total_guard evaluatorBase none AVAPSState.OFF false ⟨0, 12, 0⟩ (Or.inl rfl)

end O2Monitor
